import Mathlib

/-!
Verification development for the music-stream-api repository: a shallow
embedding of the Mongo-backed storage client (pkg/dao), the external
auth validator (pkg/service) and the HTTP handlers (pkg/api), with
theorems settling the spec claims about them.

Machine conventions:
* Mongo ObjectIDs are modelled as `Nat`.
* The document database is modelled as a `DbState` of four collections
  (tracks, playlists, audio-file documents, audio chunks) plus a
  fresh-id counter standing in for `primitive.NewObjectID` / GridFS id
  generation.
* Fallible store calls carry explicit `Option String` fault slots: a
  `some e` models the underlying driver call returning error `e`.
* An HTTP handler is a function from a parsed request and a `DbState`
  to the list of responses it writes (in order; Go can call
  `WriteHeader` more than once, which the source sometimes does) and
  the resulting `DbState`.
-/

abbrev ObjectId := Nat

/-- models.Track (pkg/models): id, name, artist, album name, audio file reference. -/
structure Track where
  id : ObjectId
  name : String
  artist : String
  albumName : String
  audioFileId : ObjectId
deriving DecidableEq, Repr

/-- models.Playlist (pkg/models): id, name, list of track references. -/
structure Playlist where
  id : ObjectId
  name : String
  tracks : List ObjectId
deriving DecidableEq, Repr

/-- A GridFS file document in the audio collection (fs.files). -/
structure AudioFile where
  id : ObjectId
  data : List Nat
  filename : String
deriving DecidableEq, Repr

/-- A GridFS chunk document in the audio chunk collection (fs.chunks), keyed by files_id. -/
structure AudioChunk where
  filesId : ObjectId
  data : List Nat
deriving DecidableEq, Repr

/-- The state of the document database plus a fresh-id counter. -/
structure DbState where
  tracks : List Track
  playlists : List Playlist
  audioFiles : List AudioFile
  audioChunks : List AudioChunk
  nextId : ObjectId
deriving DecidableEq, Repr

/-- One response write performed by a handler: respondWithError writes
an error body with a status code, respondWithSuccess a success body,
respondWithSuccessBytes a byte payload. -/
inductive HttpResponse where
  | success (code : Nat) (msg : String)
  | error (code : Nat) (msg : String)
  | bytes (code : Nat) (data : List Nat)
deriving DecidableEq, Repr

/-- Go's strings.Split with separator " ": splits a character list at
every space, keeping empty segments. -/
def splitOnSpaceAux : List Char → List Char → List (List Char)
  | [], acc => [acc.reverse]
  | c :: rest, acc =>
    if c = ' ' then acc.reverse :: splitOnSpaceAux rest []
    else splitOnSpaceAux rest (c :: acc)

/-- strings.Split(s, " ") over the characters of s. -/
def splitOnSpace (cs : List Char) : List (List Char) :=
  splitOnSpaceAux cs []

/-- getAuthToken (pkg/api): reads the Authorization header (Go's
Header.Get returns "" when the header is absent), rejects an empty
header, rejects when (length at least 7 and the first 7 characters are
not "Bearer ") or the header does not split on spaces into exactly two
parts, and otherwise returns the second part. -/
def getAuthToken (header : String) : Except String String :=
  let cs := header.toList
  if cs = [] then
    Except.error "no authorization header found"
  else if (decide (7 ≤ cs.length) && decide (cs.take 7 ≠ "Bearer ".toList))
      || (splitOnSpace cs).length != 2 then
    Except.error "authorization header must be in format 'Bearer' <token>"
  else
    Except.ok (String.mk (((splitOnSpace cs).get? 1).getD []))

/-- The outcome of the single outbound HTTP call made by ValidateToken:
either the transport fails or a response with some status arrives. -/
inductive HttpResult where
  | transportErr (msg : String)
  | response (status : Nat)
deriving DecidableEq, Repr

/-- ExternalHandler.ValidateToken (pkg/service/external_service_impl.go):
errors when the login service URL is empty, propagates a request
construction error, propagates a transport error, errors with the
status code embedded in the message on a non-200 response, and
succeeds on a 200 response. `reqErr` models the error branch of
http.NewRequest, `res` the outcome of HttpClient.Do. -/
def validateToken (loginServiceURL token : String) (reqErr : Option String)
    (res : HttpResult) : Except String Unit :=
  if loginServiceURL = "" then
    Except.error "login service url cannot be emtpy"
  else
    match reqErr with
    | some e => Except.error e
    | none =>
      match res with
      | HttpResult.transportErr e => Except.error e
      | HttpResult.response status =>
        if status != 200 then
          Except.error ("non-200 status code received: " ++ toString status)
        else
          Except.ok ()

/-- Claim C5: ValidateToken succeeds exactly when the request was
constructible and the login service responded 200 (with a configured
URL); any non-200 response yields an error whose message contains the
status code; any transport error yields an error. -/
theorem validateToken_status_spec (url token : String) (reqErr : Option String)
    (res : HttpResult) :
    (validateToken url token reqErr res = Except.ok () ↔
      (url ≠ "" ∧ reqErr = none ∧ res = HttpResult.response 200)) ∧
    (∀ status : Nat, url ≠ "" → reqErr = none → res = HttpResult.response status →
      status ≠ 200 →
      validateToken url token reqErr res =
        Except.error ("non-200 status code received: " ++ toString status)) ∧
    (∀ e : String, res = HttpResult.transportErr e →
      ∃ msg, validateToken url token reqErr res = Except.error msg) := by
  refine ⟨?_, ?_, ?_⟩
  · constructor
    · intro h
      by_cases hu : url = ""
      · simp [validateToken, hu] at h
      · cases reqErr with
        | some e => simp [validateToken, hu] at h
        | none =>
          cases res with
          | transportErr e => simp [validateToken, hu] at h
          | response status =>
            by_cases hs : status = 200
            · exact ⟨hu, rfl, by rw [hs]⟩
            · simp [validateToken, hu, hs] at h
    · rintro ⟨hu, hreq, hres⟩
      subst hreq; subst hres
      simp [validateToken, hu]
  · intro status hu hreq hres hs
    subst hreq; subst hres
    simp [validateToken, hu, hs]
  · intro e hres
    subst hres
    by_cases hu : url = ""
    · exact ⟨"login service url cannot be emtpy", by simp [validateToken, hu]⟩
    · cases reqErr with
      | some e2 => exact ⟨e2, by simp [validateToken, hu]⟩
      | none => exact ⟨e, by simp [validateToken, hu]⟩

/-- Witness for C5: at a concrete non-200 response the error message embeds the code 404. -/
theorem validateToken_status_spec_witness :
    validateToken "login.svc" "tok" none (HttpResult.response 404) =
      Except.error ("non-200 status code received: " ++ toString 404) :=
  (validateToken_status_spec "login.svc" "tok" none (HttpResult.response 404)).2.1
    404 (by decide) rfl rfl (by decide)

/-- FindOneAndDelete on the track collection with filter by _id:
removes the first (in Mongo, the unique) track with the given id. -/
def removeFirstTrack (id : ObjectId) : List Track → List Track
  | [] => []
  | t :: rest => if t.id == id then rest else t :: removeFirstTrack id rest

/-- DeleteOne on the audio collection with filter by _id: removes the
first document whose _id equals the deleted track's audio reference. -/
def deleteOneAudio (aid : ObjectId) : List AudioFile → List AudioFile
  | [] => []
  | a :: rest => if a.id == aid then rest else a :: deleteOneAudio aid rest

/-- UpdateMany on the playlist collection with filter tracks-contains
and update pull-from-tracks: every playlist whose track list contains
the id has all occurrences of it removed. -/
def pullFromPlaylists (tid : ObjectId) (l : List Playlist) : List Playlist :=
  l.map (fun p =>
    if tid ∈ p.tracks then ⟨p.id, p.name, p.tracks.filter (fun x => x != tid)⟩
    else p)

/-- Fault slots for the five fallible driver calls issued by
MongoClient.DeleteTrack, in source order: FindOneAndDelete on tracks,
SingleResult.Decode, DeleteOne on the audio collection, DeleteMany on
the chunk collection, UpdateMany on the playlist collection. -/
structure DeleteTrackFaults where
  findErr : Option String
  decodeErr : Option String
  audioDeleteErr : Option String
  chunkDeleteErr : Option String
  playlistUpdateErr : Option String
deriving DecidableEq, Repr

/-- The fault assignment in which every driver call succeeds. -/
def noDeleteFaults : DeleteTrackFaults := ⟨none, none, none, none, none⟩

/-- MongoClient.DeleteTrack (pkg/dao): FindOneAndDelete the track by id
(its error, Mongo's no-documents error when the id is absent, is
returned), decode it, DeleteOne the audio file document by the track's
audio reference, DeleteMany its chunks by files_id, then UpdateMany
playlists pulling the track id.  The source assigns the UpdateMany
error to err but ends with return nil, so a playlist-cleanup failure
is swallowed and the call still reports success. -/
def deleteTrackDao (f : DeleteTrackFaults) (id : ObjectId) (s : DbState) :
    Except String DbState :=
  match f.findErr with
  | some e => Except.error e
  | none =>
    match s.tracks.find? (fun t => t.id == id) with
    | none => Except.error "mongo: no documents in result"
    | some track =>
      match f.decodeErr with
      | some e => Except.error e
      | none =>
        let s1 : DbState :=
          ⟨removeFirstTrack id s.tracks, s.playlists, s.audioFiles, s.audioChunks, s.nextId⟩
        match f.audioDeleteErr with
        | some e => Except.error e
        | none =>
          let s2 : DbState :=
            ⟨s1.tracks, s1.playlists, deleteOneAudio track.audioFileId s1.audioFiles,
              s1.audioChunks, s1.nextId⟩
          match f.chunkDeleteErr with
          | some e => Except.error e
          | none =>
            let s3 : DbState :=
              ⟨s2.tracks, s2.playlists, s2.audioFiles,
                s2.audioChunks.filter (fun c => c.filesId != track.audioFileId), s2.nextId⟩
            match f.playlistUpdateErr with
            | some _ => Except.ok s3
            | none =>
              Except.ok
                ⟨s3.tracks, pullFromPlaylists track.id s3.playlists, s3.audioFiles,
                  s3.audioChunks, s3.nextId⟩

theorem pullFromPlaylists_not_mem (tid : ObjectId) (l : List Playlist) :
    ∀ p ∈ pullFromPlaylists tid l, tid ∉ p.tracks := by
  intro p hp hmem
  rcases List.mem_map.mp hp with ⟨q, _, hq⟩
  subst hq
  by_cases hc : tid ∈ q.tracks
  · rw [if_pos hc] at hmem
    rcases List.mem_filter.mp hmem with ⟨_, hne⟩
    simp at hne
  · rw [if_neg hc] at hmem
    exact hc hmem

theorem deleteOneAudio_all_removed (aid : ObjectId) (l : List AudioFile)
    (h : l.countP (fun a => a.id == aid) ≤ 1) :
    ∀ a ∈ deleteOneAudio aid l, a.id ≠ aid := by
  induction l with
  | nil => intro a ha; simp [deleteOneAudio] at ha
  | cons x rest ih =>
    intro a ha
    by_cases hx : x.id = aid
    · rw [deleteOneAudio, if_pos (by simp [hx])] at ha
      rw [List.countP_cons, if_pos (by simp [hx])] at h
      have hz : rest.countP (fun a => a.id == aid) = 0 := by omega
      have := List.countP_eq_zero.mp hz a ha
      simpa using this
    · rw [deleteOneAudio, if_neg (by simp [hx])] at ha
      rw [List.countP_cons, if_neg (by simp [hx]), Nat.add_zero] at h
      rcases ha with _ | ⟨_, ha⟩
      · exact hx
      · exact ih h a ha

/-- Claim C2: on the fault-free path, deleting a stored track removes
its id from the track list of every playlist, removes its audio file
document (Mongo _id being unique, the count hypothesis) and removes
every chunk of that audio object. -/
theorem deleteTrack_cascades (s : DbState) (tid : ObjectId) (tr : Track)
    (hfind : s.tracks.find? (fun t => t.id == tid) = some tr)
    (haudio : s.audioFiles.countP (fun a => a.id == tr.audioFileId) ≤ 1) :
    ∃ s2, deleteTrackDao noDeleteFaults tid s = Except.ok s2 ∧
      (∀ p ∈ s2.playlists, tid ∉ p.tracks) ∧
      (∀ a ∈ s2.audioFiles, a.id ≠ tr.audioFileId) ∧
      (∀ c ∈ s2.audioChunks, c.filesId ≠ tr.audioFileId) := by
  have htid : tr.id = tid := by
    have := List.find?_some hfind
    simpa using this
  refine ⟨⟨removeFirstTrack tid s.tracks,
      pullFromPlaylists tr.id s.playlists,
      deleteOneAudio tr.audioFileId s.audioFiles,
      s.audioChunks.filter (fun c => c.filesId != tr.audioFileId),
      s.nextId⟩, ?_, ?_, ?_, ?_⟩
  · have hstep : deleteTrackDao noDeleteFaults tid s =
        match s.tracks.find? (fun t => t.id == tid) with
        | none => Except.error "mongo: no documents in result"
        | some track =>
          Except.ok
            ⟨removeFirstTrack tid s.tracks, pullFromPlaylists track.id s.playlists,
              deleteOneAudio track.audioFileId s.audioFiles,
              s.audioChunks.filter (fun c => c.filesId != track.audioFileId), s.nextId⟩ := rfl
    rw [hstep, hfind]
  · intro p hp
    rw [← htid]
    exact pullFromPlaylists_not_mem tr.id s.playlists p hp
  · exact deleteOneAudio_all_removed tr.audioFileId s.audioFiles haudio
  · intro c hc
    rcases List.mem_filter.mp hc with ⟨_, hne⟩
    simpa using hne

/-- A concrete database state used to witness the dao theorems:
one track (id 2, audio reference 7), two playlists (one holding track 2
twice), the audio file document 7 and one chunk of it plus an unrelated
chunk. -/
def sampleDb : DbState :=
  ⟨[⟨2, "song", "artist", "album", 7⟩],
   [⟨1, "p", [2, 3, 2]⟩, ⟨4, "q", [3]⟩],
   [⟨7, [10, 20], "song"⟩],
   [⟨7, [10]⟩, ⟨8, [11]⟩],
   100⟩

/-- Witness for C2: deleting track 2 from the sample state scrubs it
from both playlists and removes audio document 7 and its chunk. -/
theorem deleteTrack_cascades_witness :
    ∃ s2, deleteTrackDao noDeleteFaults 2 sampleDb = Except.ok s2 ∧
      (∀ p ∈ s2.playlists, (2 : ObjectId) ∉ p.tracks) ∧
      (∀ a ∈ s2.audioFiles, a.id ≠ (7 : ObjectId)) ∧
      (∀ c ∈ s2.audioChunks, c.filesId ≠ (7 : ObjectId)) :=
  deleteTrack_cascades sampleDb 2 ⟨2, "song", "artist", "album", 7⟩
    (by decide) (by decide)

/-- Claim C4 (code bug): when the playlist-cleanup UpdateMany fails,
DeleteTrack still returns success, and the deleted track id is left
behind in a playlist. -/
theorem deleteTrack_swallows_playlist_update_error :
    (∃ s2, deleteTrackDao ⟨none, none, none, none, some "network error"⟩ 2 sampleDb =
        Except.ok s2 ∧
      s2.playlists.any (fun p => p.tracks.contains 2) = true) := by
  refine ⟨⟨[], [⟨1, "p", [2, 3, 2]⟩, ⟨4, "q", [3]⟩], [], [⟨8, [11]⟩], 100⟩, ?_, ?_⟩
  · rfl
  · decide

/-- MongoClient.UpdateTrack's field merge: the stored track keeps its
id and audio reference; name, artist and album are overwritten by the
update's value exactly when that value is non-empty. -/
def mergeTrack (stored upd : Track) : Track :=
  ⟨stored.id,
   if upd.name != "" then upd.name else stored.name,
   if upd.artist != "" then upd.artist else stored.artist,
   if upd.albumName != "" then upd.albumName else stored.albumName,
   stored.audioFileId⟩

/-- FindOneAndUpdate on the track collection with filter by _id and a
set of the whole merged document: replaces the first matching track. -/
def setFirstTrack (id : ObjectId) (nt : Track) : List Track → List Track
  | [] => []
  | t :: rest => if t.id == id then nt :: rest else t :: setFirstTrack id nt rest

/-- MongoClient.UpdateTrack (pkg/dao): FindOne the track by id (Mongo's
no-documents error when the id is absent), decode it, overwrite each of
name, artist and album that is non-empty in the update, and
FindOneAndUpdate setting the merged document.  Driver connection
faults are not modelled here: the claims about UpdateTrack concern the
success path and the missing-id error. -/
def updateTrackDao (id : ObjectId) (updatedTrack : Track) (s : DbState) :
    Except String DbState :=
  match s.tracks.find? (fun t => t.id == id) with
  | none => Except.error "mongo: no documents in result"
  | some track =>
    Except.ok ⟨setFirstTrack id (mergeTrack track updatedTrack) s.tracks,
      s.playlists, s.audioFiles, s.audioChunks, s.nextId⟩

/-- A parsed PUT /track/id request: the Authorization header, the
result of primitive.ObjectIDFromHex on the path id, and the result of
JSON-decoding the request body into a Track. -/
structure UpdateTrackRequest where
  authHeader : String
  idParse : Option ObjectId
  body : Option Track
deriving Repr

/-- updateTrack handler (pkg/api): authenticates, parses the path id,
decodes the body, replaces each empty metadata field of the decoded
body with its default ("Unknown", "Unknown Artist", "Unknown Album"),
and calls the storage client's UpdateTrack. -/
def updateTrackHandler (valid : String → Bool) (req : UpdateTrackRequest) (s : DbState) :
    List HttpResponse × DbState :=
  match getAuthToken req.authHeader with
  | Except.error e => ([HttpResponse.error 400 e], s)
  | Except.ok tok =>
    if !(valid tok) then ([HttpResponse.error 401 "Authentication failed"], s)
    else
      match req.idParse with
      | none => ([HttpResponse.error 400 "the provided hex string is not a valid ObjectID"], s)
      | some id =>
        match req.body with
        | none => ([HttpResponse.error 400 "error decoding request body"], s)
        | some decoded =>
          let upd : Track :=
            ⟨decoded.id,
             if decoded.name == "" then "Unknown" else decoded.name,
             if decoded.artist == "" then "Unknown Artist" else decoded.artist,
             if decoded.albumName == "" then "Unknown Album" else decoded.albumName,
             decoded.audioFileId⟩
          match updateTrackDao id upd s with
          | Except.error e => ([HttpResponse.error 500 e], s)
          | Except.ok s2 => ([HttpResponse.success 200 "Track updated successfully"], s2)

/-- A state holding one fully named track, for exercising updateTrack. -/
def updateSampleDb : DbState := ⟨[⟨1, "A", "B", "C", 9⟩], [], [], [], 50⟩

/-- Claim C3 counterexample: a PUT with non-empty name "X" and empty
artist and album responds 200 but overwrites the stored artist "B" and
album "C" with the defaults instead of leaving them unchanged. -/
theorem updateTrack_overwrites_empty_fields :
    updateTrackHandler (fun _ => true) ⟨"Bearer tok", some 1, some ⟨0, "X", "", "", 0⟩⟩
        updateSampleDb =
      ([HttpResponse.success 200 "Track updated successfully"],
        ⟨[⟨1, "X", "Unknown Artist", "Unknown Album", 9⟩], [], [], [], 50⟩) := rfl

/-- Claim C3 (amended): on a successful PUT /track/id, each metadata
field that is non-empty in the request body overwrites the stored
field, and each field given as empty overwrites it with the default
("Unknown", "Unknown Artist", "Unknown Album") instead of leaving it
unchanged; the track's id and audio-file reference are unchanged. -/
theorem updateTrack_defaults_spec (valid : String → Bool) (req : UpdateTrackRequest)
    (s : DbState) (tok : String) (id : ObjectId) (decoded stored : Track)
    (hauth : getAuthToken req.authHeader = Except.ok tok)
    (hvalid : valid tok = true)
    (hid : req.idParse = some id)
    (hbody : req.body = some decoded)
    (hfind : s.tracks.find? (fun t => t.id == id) = some stored) :
    updateTrackHandler valid req s =
      ([HttpResponse.success 200 "Track updated successfully"],
        ⟨setFirstTrack id
            ⟨stored.id,
             if decoded.name = "" then "Unknown" else decoded.name,
             if decoded.artist = "" then "Unknown Artist" else decoded.artist,
             if decoded.albumName = "" then "Unknown Album" else decoded.albumName,
             stored.audioFileId⟩ s.tracks,
          s.playlists, s.audioFiles, s.audioChunks, s.nextId⟩) := by
  simp only [updateTrackHandler, hauth, hvalid, Bool.not_true, Bool.false_eq_true,
    if_false, hid, hbody, updateTrackDao, hfind]
  rcases decoded with ⟨did, dname, dartist, dalbum, daudio⟩
  by_cases hn : dname = "" <;> by_cases ha : dartist = "" <;> by_cases hb : dalbum = "" <;>
    simp [mergeTrack, hn, ha, hb]

/-- Witness for C3 (amended): updating track 1 with empty name, artist
"Z" and empty album stores name "Unknown", artist "Z", album
"Unknown Album" and keeps id 1 and audio reference 9. -/
theorem updateTrack_defaults_spec_witness :
    updateTrackHandler (fun _ => true) ⟨"Bearer tok", some 1, some ⟨0, "", "Z", "", 0⟩⟩
        updateSampleDb =
      ([HttpResponse.success 200 "Track updated successfully"],
        ⟨setFirstTrack 1 ⟨1, "Unknown", "Z", "Unknown Album", 9⟩ updateSampleDb.tracks,
          [], [], [], 50⟩) := by
  have h := updateTrack_defaults_spec (fun _ => true)
    ⟨"Bearer tok", some 1, some ⟨0, "", "Z", "", 0⟩⟩ updateSampleDb "tok" 1
    ⟨0, "", "Z", "", 0⟩ ⟨1, "A", "B", "C", 9⟩ rfl rfl rfl rfl rfl
  simpa using h

/-- MongoClient.GetTracks (pkg/dao) specialised to the _id filter the
playlist handlers use: Find either fails with a driver error (the
fault slot) returned verbatim, or succeeds with the possibly empty
list of tracks having that id. -/
def getTracksByIdDao (fault : Option String) (tid : ObjectId) (s : DbState) :
    Except String (List Track) :=
  match fault with
  | some e => Except.error e
  | none => Except.ok (s.tracks.filter (fun t => t.id == tid))

/-- FindOneAndUpdate on the playlist collection with a push update:
appends the track id to the track list of the first playlist with the
given id. -/
def pushIntoFirstPlaylist (pid tid : ObjectId) : List Playlist → List Playlist
  | [] => []
  | p :: rest =>
    if p.id == pid then ⟨p.id, p.name, p.tracks ++ [tid]⟩ :: rest
    else p :: pushIntoFirstPlaylist pid tid rest

/-- MongoClient.UpdatePlaylist (pkg/dao) applied to the push update
built by addTrackToPlaylist: FindOneAndUpdate by playlist id, which
yields Mongo's no-documents error when the playlist is absent. -/
def updatePlaylistPushDao (pid tid : ObjectId) (s : DbState) : Except String DbState :=
  match s.playlists.find? (fun p => p.id == pid) with
  | none => Except.error "mongo: no documents in result"
  | some _ =>
    Except.ok ⟨s.tracks, pushIntoFirstPlaylist pid tid s.playlists,
      s.audioFiles, s.audioChunks, s.nextId⟩

/-- A parsed POST /playlist/pid/track/tid request: the Authorization
header and the results of primitive.ObjectIDFromHex on both path ids. -/
structure PlaylistTrackRequest where
  authHeader : String
  playlistIdParse : Option ObjectId
  trackIdParse : Option ObjectId
deriving Repr

/-- The observable outcome of the addTrackToPlaylist handler: the
responses written, the resulting database state, and the token passed
to ext.ValidateToken when validation was reached. -/
structure PlaylistHandlerResult where
  responses : List HttpResponse
  state : DbState
  validatorCalledWith : Option String
deriving Repr

/-- addTrackToPlaylist handler (pkg/api): authenticates, parses both
path ids, calls GetTracks with the track id filter discarding its
result list and checking only its error, then pushes the track id into
the playlist.  The GetTracks result list is never inspected, so an
empty result (no such track) does not stop the push. -/
def addTrackToPlaylistHandler (valid : String → Bool) (getTracksFault : Option String)
    (req : PlaylistTrackRequest) (s : DbState) : PlaylistHandlerResult :=
  match getAuthToken req.authHeader with
  | Except.error e => ⟨[HttpResponse.error 400 e], s, none⟩
  | Except.ok tok =>
    if !(valid tok) then ⟨[HttpResponse.error 401 "Authentication failed"], s, some tok⟩
    else
      match req.playlistIdParse with
      | none =>
        ⟨[HttpResponse.error 400 "the provided hex string is not a valid ObjectID"], s, some tok⟩
      | some pid =>
        match req.trackIdParse with
        | none =>
          ⟨[HttpResponse.error 400 "the provided hex string is not a valid ObjectID"], s, some tok⟩
        | some tid =>
          match getTracksByIdDao getTracksFault tid s with
          | Except.error e => ⟨[HttpResponse.error 500 e], s, some tok⟩
          | Except.ok _ =>
            match updatePlaylistPushDao pid tid s with
            | Except.error e => ⟨[HttpResponse.error 500 e], s, some tok⟩
            | Except.ok s2 =>
              ⟨[HttpResponse.success 200 "Track successfully added to playlist"], s2, some tok⟩

/-- A state with one empty playlist and no tracks at all. -/
def playlistOnlyDb : DbState := ⟨[], [⟨1, "mix", []⟩], [], [], 10⟩

/-- Claim C1 (code bug): adding track id 5, which exists nowhere in the
track store, to playlist 1 responds 200 and mutates the playlist,
because the handler discards the GetTracks result list and only checks
its error. -/
theorem addTrackToPlaylist_missing_track_succeeds :
    addTrackToPlaylistHandler (fun _ => true) none ⟨"Bearer tok", some 1, some 5⟩
        playlistOnlyDb =
      ⟨[HttpResponse.success 200 "Track successfully added to playlist"],
        ⟨[], [⟨1, "mix", [5]⟩], [], [], 10⟩, some "tok"⟩ := rfl

/-- Claim C7 counterexample: the header "a b" does not have the form
Bearer-space-token (its first characters are not "Bearer "), yet
getAuthToken accepts it and the handler passes "b" to the token
validator instead of responding 400. -/
theorem authHeader_short_header_accepted :
    getAuthToken "a b" = Except.ok "b" ∧
    "a b".toList.take 7 ≠ "Bearer ".toList ∧
    (addTrackToPlaylistHandler (fun _ => true) none ⟨"a b", some 1, some 5⟩
        playlistOnlyDb).validatorCalledWith = some "b" :=
  ⟨rfl, by decide, rfl⟩

/-- Claim C7 (amended): when getAuthToken rejects the header the
endpoint responds 400 without calling the token validator, and when it
accepts, the extracted token is passed to validation; it accepts
exactly the headers that split on spaces into two parts and either are
shorter than 7 characters or start with "Bearer " — so every
Bearer-space-token header is accepted, but some short non-Bearer
headers are accepted as well. -/
theorem authHeader_gate_spec (valid : String → Bool) (fault : Option String)
    (req : PlaylistTrackRequest) (s : DbState) :
    (∀ e, getAuthToken req.authHeader = Except.error e →
      addTrackToPlaylistHandler valid fault req s =
        ⟨[HttpResponse.error 400 e], s, none⟩) ∧
    (∀ tok, getAuthToken req.authHeader = Except.ok tok →
      (addTrackToPlaylistHandler valid fault req s).validatorCalledWith = some tok) ∧
    (∀ h : String, (∃ tok, getAuthToken h = Except.ok tok) ↔
      (h.toList ≠ [] ∧ (splitOnSpace h.toList).length = 2 ∧
        (h.toList.length < 7 ∨ h.toList.take 7 = "Bearer ".toList))) := by
  refine ⟨?_, ?_, ?_⟩
  · intro e he
    simp only [addTrackToPlaylistHandler, he]
  · intro tok htok
    cases hv : valid tok with
    | false => simp [addTrackToPlaylistHandler, htok, hv]
    | true =>
      cases hp : req.playlistIdParse with
      | none => simp [addTrackToPlaylistHandler, htok, hv, hp]
      | some pid =>
        cases ht : req.trackIdParse with
        | none => simp [addTrackToPlaylistHandler, htok, hv, hp, ht]
        | some tid =>
          cases hg : getTracksByIdDao fault tid s with
          | error e => simp [addTrackToPlaylistHandler, htok, hv, hp, ht, hg]
          | ok l =>
            cases hu : updatePlaylistPushDao pid tid s with
            | error e => simp [addTrackToPlaylistHandler, htok, hv, hp, ht, hg, hu]
            | ok s2 => simp [addTrackToPlaylistHandler, htok, hv, hp, ht, hg, hu]
  · intro h
    constructor
    · rintro ⟨tok, htok⟩
      unfold getAuthToken at htok
      by_cases hnil : h.toList = []
      · rw [if_pos hnil] at htok; cases htok
      · rw [if_neg hnil] at htok
        by_cases hsplit : (splitOnSpace h.toList).length = 2
        · by_cases hlen : 7 ≤ h.toList.length
          · by_cases htake : h.toList.take 7 = "Bearer ".toList
            · exact ⟨hnil, hsplit, Or.inr htake⟩
            · have hcondT : ((decide (7 ≤ h.toList.length) &&
                  decide (h.toList.take 7 ≠ "Bearer ".toList))
                  || (splitOnSpace h.toList).length != 2) = true := by
                rw [decide_eq_true hlen, decide_eq_true htake]; rfl
              rw [if_pos hcondT] at htok; cases htok
          · exact ⟨hnil, hsplit, Or.inl (by omega)⟩
        · have hC : ((splitOnSpace h.toList).length != 2) = true := bne_iff_ne.mpr hsplit
          have hcondT : ((decide (7 ≤ h.toList.length) &&
              decide (h.toList.take 7 ≠ "Bearer ".toList))
              || (splitOnSpace h.toList).length != 2) = true := by
            rw [hC, Bool.or_true]
          rw [if_pos hcondT] at htok; cases htok
    · rintro ⟨hnil, hlen2, hrest⟩
      have hC : ((splitOnSpace h.toList).length != 2) = false := by
        rw [hlen2]; rfl
      have hAB : (decide (7 ≤ h.toList.length) &&
          decide (h.toList.take 7 ≠ "Bearer ".toList)) = false := by
        rcases hrest with h1 | h1
        · rw [decide_eq_false (by omega : ¬ (7 ≤ h.toList.length))]
          rfl
        · have hB : decide (h.toList.take 7 ≠ "Bearer ".toList) = false :=
            decide_eq_false (fun hh => hh h1)
          rw [hB, Bool.and_false]
      refine ⟨String.mk (((splitOnSpace h.toList).get? 1).getD []), ?_⟩
      unfold getAuthToken
      rw [if_neg hnil, if_neg (by rw [hAB, hC]; simp)]

/-- Witness for C7 (amended): at the concrete header "Bearer tok" the
gate extracts "tok" and hands it to the validator. -/
theorem authHeader_gate_spec_witness :
    (addTrackToPlaylistHandler (fun _ => true) none ⟨"Bearer tok", some 1, some 5⟩
        playlistOnlyDb).validatorCalledWith = some "tok" :=
  (authHeader_gate_spec (fun _ => true) none ⟨"Bearer tok", some 1, some 5⟩
    playlistOnlyDb).2.1 "tok" rfl

/-- MongoClient.UploadAudioFile (pkg/dao): opens a GridFS upload
stream, writes the bytes under the track name and returns the stream
file id; modelled as appending an audio file document under a fresh
id drawn from the state counter. -/
def uploadAudioFileDao (data : List Nat) (trackName : String) (s : DbState) :
    ObjectId × DbState :=
  (s.nextId,
   ⟨s.tracks, s.playlists, s.audioFiles ++ [⟨s.nextId, data, trackName⟩], s.audioChunks,
     s.nextId + 1⟩)

/-- MongoClient.AddTrack (pkg/dao): InsertOne of the track document
(the claims about uploadTrack concern its success path, so the driver
fault and the no-tracks-inserted check are not reached here). -/
def addTrackDao (track : Track) (s : DbState) : DbState :=
  ⟨s.tracks ++ [track], s.playlists, s.audioFiles, s.audioChunks, s.nextId⟩

/-- A parsed POST /track multipart request: the Authorization header,
whether ParseForm succeeded, the bytes of the form file named input
(none when the file part is missing), and the result of JSON-decoding
the body form value into a Track (none models invalid JSON, which
leaves the zero-value Track in place in the source). -/
structure UploadTrackRequest where
  authHeader : String
  formParseOk : Bool
  file : Option (List Nat)
  body : Option Track
deriving Repr

/-- uploadTrack handler (pkg/api): authenticates, parses the form,
fetches and reads the file part, decodes the body form value — on a
JSON decode failure it writes a 400 error response but does NOT return
— assigns a fresh object id, substitutes defaults for empty metadata
fields, uploads the audio bytes, stores the returned audio file id on
the track and inserts it, then writes the 200 success response.  The
returned list is every response written, in order. -/
def uploadTrackHandler (valid : String → Bool) (req : UploadTrackRequest) (s : DbState) :
    List HttpResponse × DbState :=
  match getAuthToken req.authHeader with
  | Except.error e => ([HttpResponse.error 400 e], s)
  | Except.ok tok =>
    if !(valid tok) then ([HttpResponse.error 401 "Authentication failed"], s)
    else if !req.formParseOk then ([HttpResponse.error 400 "error parsing request form"], s)
    else
      match req.file with
      | none => ([HttpResponse.error 400 "http: no such file"], s)
      | some fileBytes =>
        let earlyResponses : List HttpResponse :=
          match req.body with
          | some _ => []
          | none => [HttpResponse.error 400 "error reading request body"]
        let decoded : Track := (req.body).getD ⟨0, "", "", "", 0⟩
        let track : Track :=
          ⟨s.nextId,
           if decoded.name == "" then "Unknown" else decoded.name,
           if decoded.artist == "" then "Unknown Artist" else decoded.artist,
           if decoded.albumName == "" then "Unknown Album" else decoded.albumName,
           decoded.audioFileId⟩
        let s1 : DbState := ⟨s.tracks, s.playlists, s.audioFiles, s.audioChunks, s.nextId + 1⟩
        match uploadAudioFileDao fileBytes track.name s1 with
        | (audioId, s2) =>
          let track2 : Track := ⟨track.id, track.name, track.artist, track.albumName, audioId⟩
          let s3 := addTrackDao track2 s2
          (earlyResponses ++ [HttpResponse.success 200 "Track added successfully"], s3)

/-- Claim C6: a successful POST /track stores a track whose empty
name, artist and album fields are replaced by the defaults "Unknown",
"Unknown Artist" and "Unknown Album", and whose non-empty fields are
stored as given. -/
theorem uploadTrack_defaults_spec (valid : String → Bool) (req : UploadTrackRequest)
    (s : DbState) (tok : String) (fileBytes : List Nat) (decoded : Track)
    (hauth : getAuthToken req.authHeader = Except.ok tok)
    (hvalid : valid tok = true)
    (hform : req.formParseOk = true)
    (hfile : req.file = some fileBytes)
    (hbody : req.body = some decoded) :
    uploadTrackHandler valid req s =
      ([HttpResponse.success 200 "Track added successfully"],
        ⟨s.tracks ++
            [⟨s.nextId,
              if decoded.name = "" then "Unknown" else decoded.name,
              if decoded.artist = "" then "Unknown Artist" else decoded.artist,
              if decoded.albumName = "" then "Unknown Album" else decoded.albumName,
              s.nextId + 1⟩],
          s.playlists,
          s.audioFiles ++
            [⟨s.nextId + 1, fileBytes,
              if decoded.name = "" then "Unknown" else decoded.name⟩],
          s.audioChunks, s.nextId + 2⟩) := by
  simp only [uploadTrackHandler, hauth, hvalid, Bool.not_true, Bool.false_eq_true, if_false,
    hform, hfile, hbody, uploadAudioFileDao, addTrackDao, Option.getD_some]
  rcases decoded with ⟨did, dname, dartist, dalbum, daudio⟩
  by_cases hn : dname = "" <;> by_cases ha : dartist = "" <;> by_cases hb : dalbum = "" <;>
    simp [hn, ha, hb]

/-- Witness for C6: uploading with empty name, artist "Art" and empty
album stores name "Unknown", artist "Art", album "Unknown Album". -/
theorem uploadTrack_defaults_spec_witness :
    uploadTrackHandler (fun _ => true)
        ⟨"Bearer tok", true, some [1, 2], some ⟨0, "", "Art", "", 0⟩⟩
        ⟨[], [], [], [], 0⟩ =
      ([HttpResponse.success 200 "Track added successfully"],
        ⟨[⟨0, "Unknown", "Art", "Unknown Album", 1⟩], [],
          [⟨1, [1, 2], "Unknown"⟩], [], 2⟩) := by
  have h := uploadTrack_defaults_spec (fun _ => true)
    ⟨"Bearer tok", true, some [1, 2], some ⟨0, "", "Art", "", 0⟩⟩
    ⟨[], [], [], [], 0⟩ "tok" [1, 2] ⟨0, "", "Art", "", 0⟩ rfl rfl rfl rfl rfl
  simpa using h

/-- Claim C9: when the body form value fails to decode, uploadTrack
writes a 400 error response and continues executing: the audio bytes
are uploaded, a track with all-default metadata is inserted, and the
200 success response is written after the 400 error response. -/
theorem uploadTrack_badBody_continues (valid : String → Bool) (req : UploadTrackRequest)
    (s : DbState) (tok : String) (fileBytes : List Nat)
    (hauth : getAuthToken req.authHeader = Except.ok tok)
    (hvalid : valid tok = true)
    (hform : req.formParseOk = true)
    (hfile : req.file = some fileBytes)
    (hbody : req.body = none) :
    uploadTrackHandler valid req s =
      ([HttpResponse.error 400 "error reading request body",
        HttpResponse.success 200 "Track added successfully"],
        ⟨s.tracks ++ [⟨s.nextId, "Unknown", "Unknown Artist", "Unknown Album", s.nextId + 1⟩],
          s.playlists, s.audioFiles ++ [⟨s.nextId + 1, fileBytes, "Unknown"⟩],
          s.audioChunks, s.nextId + 2⟩) := by
  simp only [uploadTrackHandler, hauth, hvalid, Bool.not_true, Bool.false_eq_true, if_false,
    hform, hfile, hbody, uploadAudioFileDao, addTrackDao, Option.getD_none]
  rfl

/-- Witness for C9: a failed body decode on an empty store still
uploads the audio and inserts the all-default track, after writing the
400 response. -/
theorem uploadTrack_badBody_continues_witness :
    uploadTrackHandler (fun _ => true) ⟨"Bearer tok", true, some [7], none⟩
        ⟨[], [], [], [], 0⟩ =
      ([HttpResponse.error 400 "error reading request body",
        HttpResponse.success 200 "Track added successfully"],
        ⟨[⟨0, "Unknown", "Unknown Artist", "Unknown Album", 1⟩], [],
          [⟨1, [7], "Unknown"⟩], [], 2⟩) := by
  have h := uploadTrack_badBody_continues (fun _ => true)
    ⟨"Bearer tok", true, some [7], none⟩ ⟨[], [], [], [], 0⟩ "tok" [7]
    rfl rfl rfl rfl rfl
  simpa using h

/-- The observable outcome of the getTrackAudio handler: either the
responses written, or a Go runtime panic from an out-of-range slice
index. -/
inductive GetTrackAudioOutcome where
  | responded (resps : List HttpResponse)
  | panicked (msg : String)
deriving DecidableEq, Repr

/-- A parsed GET /track/id request: the Authorization header and the
result of primitive.ObjectIDFromHex on the path id. -/
structure GetTrackRequest where
  authHeader : String
  idParse : Option ObjectId
deriving Repr

/-- MongoClient.DownloadAudioFile (pkg/dao): streams the stored object
into a buffer; GridFS fails with a file-not-found error when no file
document has the id. -/
def downloadAudioFileDao (aid : ObjectId) (s : DbState) : Except String (List Nat) :=
  match s.audioFiles.find? (fun a => a.id == aid) with
  | none => Except.error "gridfs: file with given parameters not found"
  | some a => Except.ok a.data

/-- getTrackAudio handler (pkg/api): authenticates, parses the path
id, queries the tracks with that _id filter and takes element 0 of the
result with no emptiness check (tracks[0] in the source), downloads
that track's audio and writes the bytes.  An empty query result makes
the element-0 access panic. -/
def getTrackAudioHandler (valid : String → Bool) (getTracksFault : Option String)
    (req : GetTrackRequest) (s : DbState) : GetTrackAudioOutcome :=
  match getAuthToken req.authHeader with
  | Except.error e => GetTrackAudioOutcome.responded [HttpResponse.error 400 e]
  | Except.ok tok =>
    if !(valid tok) then
      GetTrackAudioOutcome.responded [HttpResponse.error 401 "Authentication failed"]
    else
      match req.idParse with
      | none =>
        GetTrackAudioOutcome.responded
          [HttpResponse.error 400 "the provided hex string is not a valid ObjectID"]
      | some oid =>
        match getTracksByIdDao getTracksFault oid s with
        | Except.error e => GetTrackAudioOutcome.responded [HttpResponse.error 500 e]
        | Except.ok tracks =>
          match tracks with
          | [] =>
            GetTrackAudioOutcome.panicked "runtime error: index out of range [0] with length 0"
          | t :: _ =>
            match downloadAudioFileDao t.audioFileId s with
            | Except.error e => GetTrackAudioOutcome.responded [HttpResponse.error 500 e]
            | Except.ok bytes => GetTrackAudioOutcome.responded [HttpResponse.bytes 200 bytes]

/-- Claim C10: when authentication succeeds and the track query
succeeds but returns the empty list (no track with the requested id),
getTrackAudio reaches the unchecked element-0 access of the empty
result and panics instead of writing an error response. -/
theorem getTrackAudio_empty_result_panics (valid : String → Bool) (req : GetTrackRequest)
    (s : DbState) (tok : String) (oid : ObjectId)
    (hauth : getAuthToken req.authHeader = Except.ok tok)
    (hvalid : valid tok = true)
    (hid : req.idParse = some oid)
    (hmissing : ∀ t ∈ s.tracks, t.id ≠ oid) :
    getTrackAudioHandler valid none req s =
      GetTrackAudioOutcome.panicked "runtime error: index out of range [0] with length 0" := by
  have hfilter : s.tracks.filter (fun t => t.id == oid) = [] := by
    apply List.filter_eq_nil_iff.mpr
    intro t ht
    simpa using hmissing t ht
  simp only [getTrackAudioHandler, hauth, hvalid, Bool.not_true, Bool.false_eq_true, if_false,
    hid, getTracksByIdDao, hfilter]

/-- Witness for C10: querying track 3 against a store holding only
track 2 panics at the element-0 access. -/
theorem getTrackAudio_empty_result_panics_witness :
    getTrackAudioHandler (fun _ => true) none ⟨"Bearer tok", some 3⟩ sampleDb =
      GetTrackAudioOutcome.panicked "runtime error: index out of range [0] with length 0" :=
  getTrackAudio_empty_result_panics (fun _ => true) ⟨"Bearer tok", some 3⟩ sampleDb
    "tok" 3 rfl rfl rfl (by decide)

/-- Go's strings.HasPrefix over character lists. -/
def charsStartWith : List Char → List Char → Bool
  | _, [] => true
  | [], _ :: _ => false
  | a :: as, b :: bs => a == b && charsStartWith as bs

/-- Go's strings.Contains over character lists: some tail of the
haystack starts with the pattern. -/
def charsContain : List Char → List Char → Bool
  | [], pat => pat.isEmpty
  | h :: t, pat => charsStartWith (h :: t) pat || charsContain t pat

/-- strings.Contains(s, pat). -/
def strContains (s pat : String) : Bool :=
  charsContain s.toList pat.toList

/-- A stream format of a fetched video, as far as the handlers inspect
it: its MIME type. -/
structure YtFormat where
  itag : Nat
  mimeType : String
deriving DecidableEq, Repr

/-- The loop body of the format selection in getStream and
uploadTrackFromYoutubeLink (pkg/api): walk the formats carrying the
current index, return the index of the first format satisfying the
predicate, and 0 when none does (formatIndex keeps its initial 0). -/
def chooseFormatIndexGo (p : YtFormat → Bool) : Nat → List YtFormat → Nat
  | _, [] => 0
  | i, f :: rest => if p f then i else chooseFormatIndexGo p (i + 1) rest

/-- The format selection of getStream and uploadTrackFromYoutubeLink:
the index of the first format whose MIME type contains "audio/mp4",
and 0 when none matches. -/
def chooseFormatIndex (formats : List YtFormat) : Nat :=
  chooseFormatIndexGo (fun f => strContains f.mimeType "audio/mp4") 0 formats

theorem chooseFormatIndexGo_spec (p : YtFormat → Bool) (l : List YtFormat) :
    ∀ i, chooseFormatIndexGo p i l = if l.any p then i + l.findIdx p else 0 := by
  induction l with
  | nil => intro i; rfl
  | cons f rest ih =>
    intro i
    by_cases hf : p f = true
    · simp [chooseFormatIndexGo, hf, List.findIdx_cons]
    · have hf2 : p f = false := by
        cases hpf : p f
        · rfl
        · exact absurd hpf hf
      by_cases hr : rest.any p = true
      · simp [chooseFormatIndexGo, hf2, List.findIdx_cons, ih (i + 1), hr]
        omega
      · have hr2 : rest.any p = false := by
          cases hra : rest.any p
          · rfl
          · exact absurd hra hr
        simp [chooseFormatIndexGo, hf2, List.findIdx_cons, ih (i + 1), hr2]

/-- Claim C8: the stream format chosen is the first one whose MIME
type contains "audio/mp4" (the least such index), and index 0 when no
format's MIME type contains it. -/
theorem chooseFormatIndex_first_match (formats : List YtFormat) :
    chooseFormatIndex formats =
      if formats.any (fun f => strContains f.mimeType "audio/mp4") then
        formats.findIdx (fun f => strContains f.mimeType "audio/mp4")
      else 0 := by
  have h := chooseFormatIndexGo_spec (fun f => strContains f.mimeType "audio/mp4") formats 0
  simpa using h
